import Mathlib

/-!
Verification of the Translator-Rephraser relay (`src/app.py`).

The development shallowly embeds the pure core of the program:
the language detector `is_arabic`, the text filter `clean_response`,
the prompt builder `create_prompt`, and the streaming relay loop
`generator` from the `/generate` route.  Python strings become Lean
`String`s, nullable strings become `Option String`, and the upstream
HTTP stream becomes an explicit list of lines together with a flag for
a transport failure raised while iterating.
-/

namespace TranslatorRephraser

/-- A Python value as seen by `is_arabic` (`app.py` lines 15-19): the
route passes `data.get('text', '')`, which can be `None`, a string, or
any other JSON value (`nonStr`). -/
inductive PyVal where
  | null
  | str (s : String)
  | nonStr
deriving DecidableEq

/-- Characters matched by the regex `[؀-ۿ]` in `is_arabic`
(`app.py` line 19): the Arabic Unicode block. -/
def isArabicChar (c : Char) : Bool :=
  (0x600 ≤ c.toNat && c.toNat ≤ 0x6FF)

/-- Embedding of `is_arabic` (`app.py` lines 15-19).  Python's
`if not text or not isinstance(text, str): return False` maps `None`,
non-strings and the empty string to `false`; otherwise the result is
whether some character of the text lies in `[؀-ۿ]`. -/
def is_arabic : PyVal → Bool
  | PyVal.str s => if s.data.isEmpty then false else s.data.any isArabicChar
  | _ => false

/-- The detected source language, from the `/generate` route
(`app.py` line 110): `"Arabic" if is_arabic(original_text) else "English"`. -/
def source_language (text : PyVal) : String :=
  if is_arabic text then "Arabic" else "English"

/-- Characters matched by the regex `[ً-ٰٟ]` in
`clean_response` (`app.py` line 28): the Arabic diacritics (Tashkeel). -/
def isDiacritic (c : Char) : Bool :=
  (0x64B ≤ c.toNat && c.toNat ≤ 0x65F) || c.toNat == 0x670

/-- The body of `clean_response` on a non-null string (`app.py` lines
25-32): `re.sub` of the diacritics regex by the empty string followed by
`.replace('?', '')`, with the `if not text: return text` guard letting
the empty string through unchanged. -/
def cleanStr (s : String) : String :=
  if s.data.isEmpty then s
  else
    let noDiacritics := String.mk (s.data.filter (fun c => !(isDiacritic c)))
    let noQuestion := String.mk (noDiacritics.data.filter (fun c => !(c == '?')))
    noQuestion

/-- Embedding of `clean_response` (`app.py` lines 21-32) on a nullable
string: `None` passes through (`if not text: return text`), a string is
cleaned by `cleanStr`. -/
def clean_response : Option String → Option String
  | none => none
  | some s => some (cleanStr s)

/-- Embedding of `create_prompt` (`app.py` lines 34-103).  Each f-string
template is transcribed as explicit concatenation; the interpolation
holes become `++` around the variables, literal `{`/`}` of the JSON
template are written with hex escapes, and the part of each template
before and after the embedded `text` is grouped so the payload position
is explicit. -/
def create_prompt (text task source_lang : String) : String :=
  if task == "translate" then
    let target_lang := if source_lang == "English" then "Arabic" else "English"
    let diacritics_rule :=
      if target_lang == "Arabic" then
        "1. **ABSOLUTELY CRITICAL**: Your response MUST NOT contain any Arabic diacritics (Tashkeel / formations).\n   - **Example (Good)**: \"مرحبا\"\n2. **CRITICAL**: Do NOT output any question mark `?` characters."
      else ""
    let other_rules :=
      if target_lang == "Arabic" then
        "3. Your response MUST contain ONLY the translated text.\n4. Do NOT add any comments, explanations, or introductory phrases.\n5. **CRITICAL**: You MUST convert every single " ++ source_lang ++ " word into " ++ target_lang ++ "."
      else
        "1. Your response MUST contain ONLY the translated text.\n2. Do NOT add any comments.\n3. **CRITICAL**: You MUST convert every single " ++ source_lang ++ " word into " ++ target_lang ++ "."
    ("<start_of_turn>user\nYou are a direct translation engine. Translate the provided " ++ source_lang ++ " text to " ++ target_lang ++ ".\n\nFollow these rules exactly:\n" ++ diacritics_rule ++ "\n" ++ other_rules ++ "\n\n### TASK ###\n" ++ source_lang ++ " Text: \"")
      ++ text ++ "\"<end_of_turn>\n<start_of_turn>model\n"
  else if task == "tokenize" then
    let tag_lang := if source_lang == "Arabic" then "Arabic" else "English"
    let json_key := if source_lang == "Arabic" then "arabic_tags" else "english_tags"
    ("<start_of_turn>user\nYou are a JSON output machine. Your only function is to output a specific JSON structure. Follow these steps exactly:\n\n1.  Analyze this " ++ source_lang ++ " text: \"")
      ++ text ++
      ("\"\n2.  Extract the key nouns, entities, and concepts for use as search tags.\n3.  **All tags MUST be in " ++ tag_lang ++ ".** Do not mix languages.\n4.  **Correct any spelling errors and standardize abbreviations.**\n5.  Remove all stop words, non-essential words, and duplicate entries.\n6.  If generating " ++ tag_lang ++ " tags, do NOT include any diacritics (Tashkeel / formations).\n7.  Output **NOTHING** except for the completed JSON structure below. Do not use markdown.\n\nCOPY AND PASTE THIS TEMPLATE, THEN FILL IT IN:\n\x7b\"" ++ json_key ++ "\": []\x7d\n\nYour entire response must be only the filled-out template.<end_of_turn>\n<start_of_turn>model\n")
  else if task == "rephrase" then
    ("<start_of_turn>user\nYou are a professional editor. Your task is to rewrite the following " ++ source_lang ++ " text to be clearer, more concise, and more professional, while strictly preserving the original meaning.\n\nRules:\n1. Do NOT change the language. Keep it in " ++ source_lang ++ ".\n2. Output ONLY the rephrased text. No conversational filler.\n3. If the text is Arabic, do NOT use diacritics (Tashkeel).\n\nText: \"")
      ++ text ++ "\"<end_of_turn>\n<start_of_turn>model\n"
  else
    text

/-- The three task values recognized by `create_prompt`. -/
def recognizedTasks : List String := ["translate", "tokenize", "rephrase"]

/-- A decoded upstream JSON chunk `{response?: string|null, done?: bool}`:
`response = none` means the field is absent, `some none` that it is
JSON `null`; `done = none` means the `done` field is absent. -/
structure Chunk where
  response : Option (Option String)
  done : Option Bool
deriving DecidableEq

/-- One line of the upstream body as produced by `response.iter_lines()`
(`app.py` line 126): an empty chunk (skipped by `if chunk:`), a line on
which `json.loads` raises, or a well-formed decoded chunk. -/
inductive Line where
  | blank
  | malformed
  | ok (c : Chunk)
deriving DecidableEq

/-- How the relay's read loop over the upstream lines ends, together
with the event frames it yielded: it broke out early on `done`, it
exhausted the line iterator, or `json.loads` raised on a malformed
line (the exception is not caught by the `except` clause). -/
inductive LoopOut where
  | brokeEarly (evs : List String)
  | exhausted (evs : List String)
  | decodeError (evs : List String)
deriving DecidableEq

/-- The events yielded by the loop, whichever way it ended. -/
def LoopOut.events : LoopOut → List String
  | .brokeEarly evs => evs
  | .exhausted evs => evs
  | .decodeError evs => evs

/-- Prepend earlier events to a loop outcome. -/
def LoopOut.withEvents (evs : List String) : LoopOut → LoopOut
  | .brokeEarly e => .brokeEarly (evs ++ e)
  | .exhausted e => .exhausted (evs ++ e)
  | .decodeError e => .decodeError (evs ++ e)

/-- An outbound server-sent event frame (`app.py` lines 132, 137, 141):
a `data: ` prefix, the content, and a blank-line terminator. -/
def frame (s : String) : String := "data: " ++ s ++ "\n\n"

/-- The frames yielded for one decoded chunk (`app.py` lines 129-132):
one cleaned fragment frame when the `response` field is present and not
null, nothing otherwise. -/
def chunkEvents (c : Chunk) : List String :=
  match c.response with
  | some (some s) => [frame (cleanStr s)]
  | _ => []

/-- The relay's read loop (`app.py` lines 126-135).  Empty chunks are
skipped; a malformed line raises out of the loop; otherwise the
fragment (if any) is yielded and then `decoded_chunk.get('done', False)`
decides whether to `break`. -/
def loop : List Line → LoopOut
  | [] => .exhausted []
  | Line.blank :: rest => loop rest
  | Line.malformed :: _ => .decodeError []
  | Line.ok c :: rest =>
    if c.done.getD false then .brokeEarly (chunkEvents c)
    else (loop rest).withEvents (chunkEvents c)

/-- The behaviour of the upstream HTTP call: either `requests.post` /
`raise_for_status` raises a `RequestException` before any line is read,
or the body yields `lines` and then, when `iterFails` is set,
`iter_lines` raises a `RequestException` after the last of them. -/
inductive Upstream where
  | requestError
  | stream (lines : List Line) (iterFails : Bool)
deriving DecidableEq

/-- Whether the generator body ran to completion or a `json.JSONDecodeError`
(not a `requests.exceptions.RequestException`, hence not caught by the
`except` clause at `app.py` line 139) propagated out of it. -/
inductive GenResult where
  | completed
  | uncaughtDecodeError
deriving DecidableEq

/-- Embedding of the `generator` closure (`app.py` lines 121-141): the
frames it yields, paired with whether it completed or leaked a decode
error.  On a `RequestException` (before any line, or from `iter_lines`
after the lines were served) the `except` clause yields the `[ERROR]`
frame; a normally ended loop is followed by the `[END_OF_STREAM]`
frame; a decode error aborts the generator with no sentinel. -/
def generator : Upstream → List String × GenResult
  | Upstream.requestError => ([frame "[ERROR]"], GenResult.completed)
  | Upstream.stream lines iterFails =>
    match loop lines with
    | LoopOut.brokeEarly evs => (evs ++ [frame "[END_OF_STREAM]"], GenResult.completed)
    | LoopOut.exhausted evs =>
      if iterFails then (evs ++ [frame "[ERROR]"], GenResult.completed)
      else (evs ++ [frame "[END_OF_STREAM]"], GenResult.completed)
    | LoopOut.decodeError evs => (evs, GenResult.uncaughtDecodeError)

/-- Whether the upstream call failed with a `RequestException` that the
generator actually observes: an error before any line, or an iteration
failure that is reached because the loop never broke out early. -/
def upstreamFailed : Upstream → Bool
  | Upstream.requestError => true
  | Upstream.stream lines iterFails =>
    iterFails && (match loop lines with
      | LoopOut.exhausted _ => true
      | _ => false)

/-- Whether `pat` matches at the head of `s` (character-wise). -/
def leadMatch : List Char → List Char → Bool
  | [], _ => true
  | _ :: _, [] => false
  | p :: ps, c :: cs => p == c && leadMatch ps cs

/-- Whether `pat` occurs contiguously anywhere in `s`. -/
def hasSub (pat : List Char) : List Char → Bool
  | [] => leadMatch pat []
  | c :: cs => leadMatch pat (c :: cs) || hasSub pat cs

/-- A marker phrase of the rule forbidding Arabic diacritics in the
output (`app.py` line 45). -/
def diacriticsRuleText : String := "MUST NOT contain any Arabic diacritics"

/-- A marker phrase of the rule forbidding question marks in the
output (`app.py` line 47). -/
def questionMarkRuleText : String := "Do NOT output any question mark"

set_option maxRecDepth 100000

/-! ## Helper lemmas -/

/-- A concatenation whose right part is non-empty is non-empty. -/
theorem append_ne_empty_of_right (a b : String) (hb : b ≠ "") : a ++ b ≠ "" := by
  intro h
  apply hb
  have hd : a.data ++ b.data = [] := by
    have := congrArg String.data h
    simpa [String.data_append] using this
  obtain ⟨bl⟩ := b
  obtain ⟨-, h2⟩ := List.append_eq_nil.mp hd
  subst h2
  rfl

/-- Prepending events commutes with reading off the events of a loop
outcome. -/
theorem LoopOut.events_withEvents (evs : List String) (o : LoopOut) :
    (o.withEvents evs).events = evs ++ o.events := by
  cases o <;> rfl

/-- Every frame produced for a single chunk is a cleaned fragment frame. -/
theorem chunkEvents_frames (c : Chunk) :
    ∀ e ∈ chunkEvents c, ∃ s, e = frame (cleanStr s) := by
  intro e he
  unfold chunkEvents at he
  rcases hr : c.response with - | (- | s) <;> rw [hr] at he <;> simp at he
  exact ⟨s, he⟩

/-- Every frame yielded by the relay's read loop is a cleaned fragment
frame, whichever way the loop ends. -/
theorem loop_events_frames (lines : List Line) :
    ∀ e ∈ (loop lines).events, ∃ s, e = frame (cleanStr s) := by
  induction lines with
  | nil => simp [loop, LoopOut.events]
  | cons l rest ih =>
    cases l with
    | blank => simpa [loop] using ih
    | malformed => simp [loop, LoopOut.events]
    | ok c =>
      intro e he
      rw [loop] at he
      by_cases hd : c.done.getD false
      · rw [if_pos hd] at he
        exact chunkEvents_frames c e he
      · rw [if_neg hd, LoopOut.events_withEvents, List.mem_append] at he
        rcases he with he | he
        · exact chunkEvents_frames c e he
        · exact ih e he

/-- Reading off the character list of a constructed string. -/
theorem data_mk (l : List Char) : (String.mk l).data = l := rfl

/-- A string none of whose characters are diacritics or question marks
is left unchanged by the cleaning pass. -/
theorem cleanStr_of_clean (s : String)
    (h : ∀ c ∈ s.data, isDiacritic c = false ∧ c ≠ '?') : cleanStr s = s := by
  by_cases he : s.data.isEmpty
  · simp [cleanStr, he]
  · have h1 : s.data.filter (fun c => !(isDiacritic c)) = s.data :=
      List.filter_eq_self.mpr (fun c hc => by simp [(h c hc).1])
    have h2 : s.data.filter (fun c => !(c == '?')) = s.data :=
      List.filter_eq_self.mpr (fun c hc => by simp [(h c hc).2])
    show cleanStr s = s
    rw [cleanStr]
    rw [if_neg he]
    show String.mk ((String.mk (s.data.filter fun c => !(isDiacritic c))).data.filter fun c => !(c == '?')) = s
    rw [data_mk, h1, h2]

/-- The cleaning pass leaves no diacritic and no question mark behind. -/
theorem cleanStr_no_bad (s : String) :
    ∀ c ∈ (cleanStr s).data, isDiacritic c = false ∧ c ≠ '?' := by
  intro c hc
  rw [cleanStr] at hc
  by_cases he : s.data.isEmpty
  · rw [if_pos he] at hc
    rw [List.isEmpty_iff.mp he] at hc
    simp at hc
  · rw [if_neg he] at hc
    simp only [String.data] at hc
    rw [List.mem_filter] at hc
    obtain ⟨hc1, hc2⟩ := hc
    rw [List.mem_filter] at hc1
    obtain ⟨-, hd⟩ := hc1
    constructor
    · simpa using hd
    · simpa using hc2

/-! ## Claim theorems -/

/-- C3: for every input string, `clean_response` returns the input with
every character in the Arabic diacritics range (U+064B-U+065F, U+0670)
and every literal `?` removed and all other characters unchanged in
order; `None` and the empty string pass through unchanged; and
`clean_response "مَرْحَبًا?" = "مرحبا"`. -/
theorem clean_response_spec :
    (∀ s : String, clean_response (some s) =
      some (String.mk (s.data.filter (fun c => !(isDiacritic c || c == '?'))))) ∧
    clean_response none = none ∧
    clean_response (some "") = some "" ∧
    clean_response (some "مَرْحَبًا?") = some "مرحبا" := by
  refine ⟨?_, rfl, by rfl, by rfl⟩
  intro s
  by_cases he : s.data.isEmpty
  · have hnil : s.data = [] := List.isEmpty_iff.mp he
    simp [clean_response, cleanStr, he, hnil]
    obtain ⟨l⟩ := s
    simp only [data_mk] at hnil
    subst hnil
    rfl
  · show some (cleanStr s) = _
    rw [cleanStr, if_neg he]
    show some (String.mk ((String.mk (s.data.filter fun c => !(isDiacritic c))).data.filter fun c => !(c == '?'))) = _
    rw [data_mk, List.filter_filter]
    congr 2
    apply List.filter_congr
    intro c hc
    cases hd : isDiacritic c <;> cases hq : c == '?' <;> simp [hd, hq]

/-- C4: every text with at least one character in the Arabic Unicode
block (U+0600-U+06FF) is classified as Arabic; all-ASCII text, the
empty string, `None`, and non-string inputs are classified as English,
with no error raised. -/
theorem language_detector_spec :
    (∀ s : String, (∃ c ∈ s.data, 0x600 ≤ c.toNat ∧ c.toNat ≤ 0x6FF) →
      source_language (PyVal.str s) = "Arabic") ∧
    (∀ s : String, (∀ c ∈ s.data, c.toNat < 0x80) →
      source_language (PyVal.str s) = "English") ∧
    source_language PyVal.null = "English" ∧
    source_language PyVal.nonStr = "English" ∧
    source_language (PyVal.str "") = "English" := by
  refine ⟨?_, ?_, rfl, rfl, rfl⟩
  · rintro s ⟨c, hc, h1, h2⟩
    have hne : s.data ≠ [] := List.ne_nil_of_mem hc
    have he : s.data.isEmpty = false := by
      simpa [List.isEmpty_iff] using hne
    have hany : s.data.any isArabicChar = true :=
      List.any_eq_true.mpr ⟨c, hc, by simp [isArabicChar, h1, h2]⟩
    simp [source_language, is_arabic, he, hany]
  · intro s hascii
    by_cases he : s.data.isEmpty
    · simp [source_language, is_arabic, he]
    · have hany : s.data.any isArabicChar = false := by
        rw [List.any_eq_false]
        intro c hc
        have := hascii c hc
        simp only [isArabicChar]
        intro hcontra
        rw [Bool.and_eq_true, decide_eq_true_eq, decide_eq_true_eq] at hcontra
        omega
      simp [source_language, is_arabic, he, hany]

/-- Witness for C4 at concrete inputs. -/
theorem language_detector_spec_witness :
    source_language (PyVal.str "مرحبا") = "Arabic" ∧
    source_language (PyVal.str "hello") = "English" :=
  ⟨language_detector_spec.1 "مرحبا" (by decide),
   language_detector_spec.2.1 "hello" (by decide)⟩

/-- C9: `clean_response` is idempotent, and a fragment already free of
Arabic diacritics and `?` characters is returned byte-identical. -/
theorem clean_response_idempotent :
    (∀ t, clean_response (clean_response t) = clean_response t) ∧
    (∀ s : String, (∀ c ∈ s.data, isDiacritic c = false ∧ c ≠ '?') →
      clean_response (some s) = some s) := by
  constructor
  · intro t
    rcases t with - | s
    · rfl
    · show some (cleanStr (cleanStr s)) = some (cleanStr s)
      rw [cleanStr_of_clean (cleanStr s) (cleanStr_no_bad s)]
  · intro s h
    show some (cleanStr s) = some s
    rw [cleanStr_of_clean s h]

/-- Witness for C9 at concrete inputs. -/
theorem clean_response_idempotent_witness :
    clean_response (clean_response (some "abc?")) = clean_response (some "abc?") ∧
    clean_response (some "abc") = some "abc" :=
  ⟨clean_response_idempotent.1 (some "abc?"),
   clean_response_idempotent.2 "abc" (by decide)⟩

/-- C10: a decoded chunk carrying a non-null `response` and `done = true`
makes the loop emit the cleaned fragment frame and only then break, so
the final fragment is never dropped (the whole relay then emits the
fragment followed by the success sentinel); a decoded chunk with no
`done` field is treated as `done = false` and the loop continues with
the remaining lines. -/
theorem final_fragment_before_break :
    (∀ (s : String) (rest : List Line),
      loop (Line.ok ⟨some (some s), some true⟩ :: rest) =
        LoopOut.brokeEarly [frame (cleanStr s)]) ∧
    (∀ (s : String) (rest : List Line) (iterFails : Bool),
      (generator (Upstream.stream (Line.ok ⟨some (some s), some true⟩ :: rest) iterFails)).1 =
        [frame (cleanStr s), frame "[END_OF_STREAM]"]) ∧
    (∀ (c : Chunk) (rest : List Line), c.done = none →
      loop (Line.ok c :: rest) = (loop rest).withEvents (chunkEvents c)) := by
  refine ⟨fun s rest => rfl, fun s rest iterFails => rfl, ?_⟩
  intro c rest hd
  rw [loop, hd]
  rfl

/-- Witness for C10 at concrete inputs. -/
theorem final_fragment_before_break_witness :
    loop [Line.ok ⟨some (some "hi"), none⟩] =
      (loop []).withEvents (chunkEvents ⟨some (some "hi"), none⟩) ∧
    loop [Line.ok ⟨some (some "hi"), some true⟩, Line.malformed] =
      LoopOut.brokeEarly [frame (cleanStr "hi")] :=
  ⟨final_fragment_before_break.2.2 ⟨some (some "hi"), none⟩ [] rfl,
   final_fragment_before_break.1 "hi" [Line.malformed]⟩

/-- C5 counterexample: with an unrecognized task and empty text the
prompt builder returns the empty string, so its output is not always
non-empty. -/
theorem prompt_nonempty_cex : create_prompt "" "summarize" "English" = "" := rfl

/-- C5 as amended: for every text, task and source language, the prompt
builder's output contains the literal input text verbatim as a
substring, and it is non-empty whenever the task is one of the three
recognized tasks (for an unrecognized task the output is the input text
itself, hence empty exactly when the text is empty). -/
theorem prompt_contains_text :
    ∀ text task lang : String,
      (∃ a b, create_prompt text task lang = a ++ text ++ b) ∧
      (task ∈ recognizedTasks → create_prompt text task lang ≠ "") := by
  intro text task lang
  by_cases h1 : task = "translate"
  · subst h1
    exact ⟨⟨_, _, rfl⟩, fun _ => append_ne_empty_of_right _ _ (by decide)⟩
  · by_cases h2 : task = "tokenize"
    · subst h2
      exact ⟨⟨_, _, rfl⟩,
        fun _ => append_ne_empty_of_right _ _ (append_ne_empty_of_right _ _ (by decide))⟩
    · by_cases h3 : task = "rephrase"
      · subst h3
        exact ⟨⟨_, _, rfl⟩, fun _ => append_ne_empty_of_right _ _ (by decide)⟩
      · have heq : create_prompt text task lang = text := by
          simp [create_prompt, h1, h2, h3]
        refine ⟨⟨"", "", ?_⟩, ?_⟩
        · rw [heq, String.empty_append, String.append_empty]
        · intro hm
          simp [recognizedTasks] at hm
          rcases hm with hm | hm | hm <;> [exact absurd hm h1; exact absurd hm h2; exact absurd hm h3]

/-- Witness for C5 (amended) at a concrete input. -/
theorem prompt_contains_text_witness :
    (∃ a b, create_prompt "hi" "translate" "English" = a ++ "hi" ++ b) ∧
    create_prompt "hi" "translate" "English" ≠ "" := by
  obtain ⟨w1, w2⟩ := prompt_contains_text "hi" "translate" "English"
  exact ⟨w1, w2 (by simp [recognizedTasks])⟩

/-- C6: for `task = translate` the target language is the opposite of
the source language: with source English the prompt instructs
translation to Arabic and its fixed template parts (before and after
the embedded text) contain the diacritics-forbidden rule and the
question-mark rule; with source Arabic the prompt instructs translation
to English and its fixed template parts do not contain the diacritics
rule. -/
theorem translate_direction_spec :
    (∀ text, ∃ a b, create_prompt text "translate" "English" = a ++ text ++ b ∧
      hasSub "Translate the provided English text to Arabic.".data a.data = true ∧
      hasSub diacriticsRuleText.data a.data = true ∧
      hasSub questionMarkRuleText.data a.data = true) ∧
    (∀ text, ∃ a b, create_prompt text "translate" "Arabic" = a ++ text ++ b ∧
      hasSub "Translate the provided Arabic text to English.".data a.data = true ∧
      hasSub diacriticsRuleText.data a.data = false ∧
      hasSub diacriticsRuleText.data b.data = false) := by
  constructor <;> intro text <;> refine ⟨_, _, rfl, ?_, ?_, ?_⟩ <;> decide

/-- C7: for `task = tokenize` the JSON template key embedded in the
prompt is `arabic_tags` for source Arabic and `english_tags` for source
English, selected deterministically by the source language (the fixed
template parts never mention the other key). -/
theorem tokenize_json_key_spec :
    (∀ text, ∃ a b, create_prompt text "tokenize" "Arabic" = a ++ text ++ b ∧
      hasSub "\x7b\"arabic_tags\": []\x7d".data b.data = true ∧
      hasSub "english_tags".data a.data = false ∧
      hasSub "english_tags".data b.data = false) ∧
    (∀ text, ∃ a b, create_prompt text "tokenize" "English" = a ++ text ++ b ∧
      hasSub "\x7b\"english_tags\": []\x7d".data b.data = true ∧
      hasSub "arabic_tags".data a.data = false ∧
      hasSub "arabic_tags".data b.data = false) := by
  constructor <;> intro text <;> refine ⟨_, _, rfl, ?_, ?_, ?_⟩ <;> decide

/-- C8: for every task value outside {translate, tokenize, rephrase}
and every text, the prompt builder returns the original input text
unchanged. -/
theorem unrecognized_task_fallback (text task lang : String)
    (h : task ∉ recognizedTasks) : create_prompt text task lang = text := by
  simp only [recognizedTasks, List.mem_cons, List.mem_singleton] at h
  push_neg at h
  obtain ⟨h1, h2, h3⟩ := h
  simp [create_prompt, h1, h2, h3]

/-- Witness for C8 at a concrete input. -/
theorem unrecognized_task_fallback_witness :
    create_prompt "hello" "summarize" "Arabic" = "hello" :=
  unrecognized_task_fallback "hello" "summarize" "Arabic" (by simp [recognizedTasks])

/-- C1: whenever the generator runs to completion (that is, the loop
either ends normally or the upstream call fails with a caught
`RequestException`), the outbound stream is a list of cleaned fragment
frames followed by exactly one terminal sentinel: `[END_OF_STREAM]`
when the upstream did not fail, `[ERROR]` when it did, never both; in
particular, a connection error before any line is read produces exactly
the single `[ERROR]` event and no fragment events. -/
theorem relay_terminal_sentinel :
    (∀ u, (generator u).2 = GenResult.completed →
      ∃ frags, (∀ e ∈ frags, ∃ s, e = frame (cleanStr s)) ∧
        ((upstreamFailed u = false ∧
            (generator u).1 = frags ++ [frame "[END_OF_STREAM]"]) ∨
         (upstreamFailed u = true ∧
            (generator u).1 = frags ++ [frame "[ERROR]"]))) ∧
    generator Upstream.requestError = ([frame "[ERROR]"], GenResult.completed) := by
  refine ⟨?_, rfl⟩
  intro u hu
  rcases u with - | ⟨lines, iterFails⟩
  · exact ⟨[], by simp, Or.inr ⟨rfl, rfl⟩⟩
  · have hframes := loop_events_frames lines
    rcases hl : loop lines with evs | evs | evs
    · rw [hl] at hframes
      refine ⟨evs, hframes, Or.inl ⟨?_, ?_⟩⟩
      · simp [upstreamFailed, hl]
      · simp [generator, hl]
    · rw [hl] at hframes
      cases iterFails
      · refine ⟨evs, hframes, Or.inl ⟨?_, ?_⟩⟩
        · simp [upstreamFailed, hl]
        · simp [generator, hl]
      · refine ⟨evs, hframes, Or.inr ⟨?_, ?_⟩⟩
        · simp [upstreamFailed, hl]
        · simp [generator, hl]
    · rw [show (generator (Upstream.stream lines iterFails)).2 = GenResult.uncaughtDecodeError by
        simp [generator, hl]] at hu
      exact absurd hu (by simp)

/-- Witness for C1: the upstream connection-error case. -/
theorem relay_terminal_sentinel_witness :
    ∃ frags, (∀ e ∈ frags, ∃ s, e = frame (cleanStr s)) ∧
      ((upstreamFailed Upstream.requestError = false ∧
          (generator Upstream.requestError).1 = frags ++ [frame "[END_OF_STREAM]"]) ∨
       (upstreamFailed Upstream.requestError = true ∧
          (generator Upstream.requestError).1 = frags ++ [frame "[ERROR]"])) :=
  relay_terminal_sentinel.1 Upstream.requestError rfl

/-- C2 counterexample: a single malformed upstream line makes the
generator leak the JSON decode error (it is a `ValueError`, not a
`requests.exceptions.RequestException`, so the `except` clause does not
catch it) and the outbound stream carries no `[ERROR]` sentinel. -/
theorem malformed_line_uncaught_cex :
    (generator (Upstream.stream [Line.malformed] false)).2 =
      GenResult.uncaughtDecodeError ∧
    frame "[ERROR]" ∉ (generator (Upstream.stream [Line.malformed] false)).1 := by
  exact ⟨rfl, by simp [generator, loop]⟩

/-- C2 as amended: only `requests`-level transport failures (a
connection error before any line, or a transport error raised while
iterating the body) are caught at the relay boundary and surfaced as
the `[ERROR]` sentinel; a non-empty upstream line that does not decode
as JSON instead aborts the generator with an uncaught decode error,
after only cleaned fragment frames and with no sentinel of any kind. -/
theorem malformed_line_uncaught_amended :
    (∀ lines iterFails evs, loop lines = LoopOut.decodeError evs →
      (generator (Upstream.stream lines iterFails)).2 = GenResult.uncaughtDecodeError ∧
      (generator (Upstream.stream lines iterFails)).1 = evs ∧
      ∀ e ∈ evs, ∃ s, e = frame (cleanStr s)) ∧
    generator Upstream.requestError = ([frame "[ERROR]"], GenResult.completed) ∧
    (∀ lines evs, loop lines = LoopOut.exhausted evs →
      (generator (Upstream.stream lines true)).1 = evs ++ [frame "[ERROR]"]) := by
  refine ⟨?_, rfl, ?_⟩
  · intro lines iterFails evs hl
    have hframes := loop_events_frames lines
    rw [hl] at hframes
    exact ⟨by simp [generator, hl], by simp [generator, hl], hframes⟩
  · intro lines evs hl
    simp [generator, hl]

/-- Witness for C2 (amended) at concrete inputs. -/
theorem malformed_line_uncaught_amended_witness :
    ((generator (Upstream.stream [Line.malformed] false)).2 =
        GenResult.uncaughtDecodeError ∧
      (generator (Upstream.stream [Line.malformed] false)).1 = [] ∧
      ∀ e ∈ ([] : List String), ∃ s, e = frame (cleanStr s)) ∧
    (generator (Upstream.stream [] true)).1 = [] ++ [frame "[ERROR]"] :=
  ⟨malformed_line_uncaught_amended.1 [Line.malformed] false [] rfl,
   malformed_line_uncaught_amended.2.2 [] [] rfl⟩

end TranslatorRephraser
